import Mathlib

/-!
# Verification of the govbr-auth authentication service

Shallow embedding of the govbr-auth TypeScript library.

Modelling conventions:
* JavaScript strings are Lean `String`s; `Buffer.from(s)` / hashing operate on
  the UTF-8 bytes of the string, modelled as `List Nat` with every byte `< 256`.
* JavaScript arrays are mutable objects held by reference.  A small `Heap`
  (addresses `Nat` to `List String`) models the scope arrays: the object spread
  in the constructor copies scalar fields by value but copies the `scopes`
  field as a reference, so aliasing between the caller's array and the
  service's resolved configuration is observable.  `heapWrite` models in-place
  mutation of an array object (e.g. `push`).
* Randomness (nonce, state, PKCE verifier) is passed in as explicit arguments;
  the service methods are otherwise pure request/string builders.
* `x || y` on JavaScript strings is `jsOrStr`: the empty string is falsy.
  On arrays `x || y` keeps any supplied array (even `[]`), modelled by
  `Option` on the heap reference.
-/

/-- Environment tag (src/types.ts). -/
inductive GovEnvironment where
  | production
  | staging
deriving DecidableEq, Repr

/-- One environment's endpoint table (src/config/index.ts). -/
structure Endpoints where
  authorize : String
  token : String
  userinfo : String
  logout : String
  confiabilidades : String
deriving DecidableEq, Repr

/-- The static ENDPOINTS mapping (src/config/index.ts). -/
def ENDPOINTS : GovEnvironment → Endpoints
  | .staging =>
    { authorize := "https://sso.staging.acesso.gov.br/authorize"
      token := "https://sso.staging.acesso.gov.br/token"
      userinfo := "https://sso.staging.acesso.gov.br/userinfo"
      logout := "https://sso.staging.acesso.gov.br/logout"
      confiabilidades := "https://api.staging.acesso.gov.br/confiabilidades/v3" }
  | .production =>
    { authorize := "https://sso.acesso.gov.br/authorize"
      token := "https://sso.acesso.gov.br/token"
      userinfo := "https://sso.acesso.gov.br/userinfo"
      logout := "https://sso.acesso.gov.br/logout"
      confiabilidades := "https://api.acesso.gov.br/confiabilidades/v3" }

/-- DEFAULT_SCOPES (src/config/index.ts). -/
def DEFAULT_SCOPES : List String := ["openid", "email", "profile", "govbr_confiabilidades"]

/-- Heap of JavaScript array objects: address to current contents, plus the
next fresh address.  Models reference semantics of the scopes arrays. -/
structure Heap where
  data : Nat → List String
  next : Nat

/-- In-place mutation of the array object at address `r` (e.g. `arr.push`). -/
def heapWrite (h : Heap) (r : Nat) (v : List String) : Heap :=
  { data := fun n => if n = r then v else h.data n, next := h.next }

/-- The caller's configuration object (src/types.ts `GovBRConfig`).
`scopes` is `some r` when the caller supplied an array object at heap address
`r`, `none` when the field is absent; absent or `undefined` required string
fields are modelled as `""` (both are falsy in the constructor's check). -/
structure GovBRConfig where
  clientId : String
  clientSecret : String
  redirectUri : String
  environment : Option GovEnvironment := none
  scopes : Option Nat := none

/-- The constructed service: the resolved (`Required<GovBRConfig>`)
configuration plus the selected endpoint table
(src/services/authService.ts, fields of `AuthService`). -/
structure AuthService where
  clientId : String
  clientSecret : String
  redirectUri : String
  environment : GovEnvironment
  scopesRef : Nat
  endpoints : Endpoints

/-- `AuthService` constructor (src/services/authService.ts).  Throws when any
of the three required fields is falsy; otherwise resolves
`environment: config.environment || 'production'` and
`scopes: config.scopes || [...DEFAULT_SCOPES]`.  A supplied scopes array is
kept by reference (JavaScript `||` returns the array object itself, and the
spread copies the reference); an omitted one allocates a fresh copy of
`DEFAULT_SCOPES`. -/
def mkAuthService (config : GovBRConfig) (h : Heap) :
    Except String (AuthService × Heap) :=
  if config.clientId = "" ∨ config.clientSecret = "" ∨ config.redirectUri = "" then
    .error "Missing required configuration parameters"
  else
    let env := config.environment.getD .production
    match config.scopes with
    | some r =>
      .ok ({ clientId := config.clientId
             clientSecret := config.clientSecret
             redirectUri := config.redirectUri
             environment := env
             scopesRef := r
             endpoints := ENDPOINTS env }, h)
    | none =>
      .ok ({ clientId := config.clientId
             clientSecret := config.clientSecret
             redirectUri := config.redirectUri
             environment := env
             scopesRef := h.next
             endpoints := ENDPOINTS env },
           { data := fun n => if n = h.next then DEFAULT_SCOPES else h.data n
             next := h.next + 1 })

/-! ## UTF-8 bytes of a string -/

/-- UTF-8 encoding of one Unicode scalar value. -/
def utf8EncodeCharNat (n : Nat) : List Nat :=
  if n < 128 then [n]
  else if n < 2048 then [192 + n / 64, 128 + n % 64]
  else if n < 65536 then [224 + n / 4096, 128 + n / 64 % 64, 128 + n % 64]
  else [240 + n / 262144, 128 + n / 4096 % 64, 128 + n / 64 % 64, 128 + n % 64]

/-- UTF-8 bytes of a string (what `Buffer.from(str)` / `hash.update(str)`
operate on). -/
def utf8Bytes (s : String) : List Nat :=
  s.data.flatMap (fun c => utf8EncodeCharNat c.toNat)

/-! ## Base64 and its URL-safe variant -/

/-- Character of the standard base64 alphabet for a 6-bit value. -/
def b64Char (n : Nat) : Char :=
  if n < 26 then Char.ofNat (65 + n)
  else if n < 52 then Char.ofNat (71 + n)
  else if n < 62 then Char.ofNat (n - 4)
  else if n = 62 then '+'
  else '/'

/-- Inverse of `b64Char` on the base64 alphabet. -/
def b64Index (c : Char) : Nat :=
  if c = '+' then 62
  else if c = '/' then 63
  else if 97 ≤ c.toNat then c.toNat - 71
  else if 65 ≤ c.toNat then c.toNat - 65
  else c.toNat + 4

/-- Standard padded base64 encoding of a byte list
(`Buffer.toString('base64')`). -/
def b64EncodeBytes : List Nat → List Char
  | a :: b :: c :: rest =>
    b64Char (a / 4) :: b64Char (a % 4 * 16 + b / 16) ::
      b64Char (b % 16 * 4 + c / 64) :: b64Char (c % 64) :: b64EncodeBytes rest
  | [a, b] => [b64Char (a / 4), b64Char (a % 4 * 16 + b / 16), b64Char (b % 16 * 4), '=']
  | [a] => [b64Char (a / 4), b64Char (a % 4 * 16), '=', '=']
  | [] => []

/-- The URL-safe substitution applied by the library:
`+` to `-` and `/` to `_`. -/
def toUrlSafeChar (c : Char) : Char :=
  if c = '+' then '-' else if c = '/' then '_' else c

/-- Reversal of the URL-safe substitution: `-` to `+` and `_` to `/`. -/
def fromUrlSafeChar (c : Char) : Char :=
  if c = '-' then '+' else if c = '_' then '/' else c

/-- `base64URLEncode` (src/utils/index.ts): base64, then `+`→`-`, `/`→`_`,
and all `=` removed. -/
def base64URLEncode (s : String) : String :=
  String.mk (((b64EncodeBytes (utf8Bytes s)).map toUrlSafeChar).filter
    (fun c => decide (c ≠ '=')))

/-- Restore `=` padding to a multiple-of-4 length. -/
def b64Repad (cs : List Char) : List Char :=
  cs ++ List.replicate ((4 - cs.length % 4) % 4) '='

/-- Standard base64 decoding of a padded character list. -/
def b64DecodeChars : List Char → List Nat
  | c1 :: c2 :: c3 :: c4 :: rest =>
    if c3 = '=' then [b64Index c1 * 4 + b64Index c2 / 16]
    else if c4 = '=' then
      [b64Index c1 * 4 + b64Index c2 / 16, b64Index c2 % 16 * 16 + b64Index c3 / 4]
    else
      (b64Index c1 * 4 + b64Index c2 / 16) ::
        (b64Index c2 % 16 * 16 + b64Index c3 / 4) ::
        (b64Index c3 % 4 * 64 + b64Index c4) :: b64DecodeChars rest
  | _ => []

/-- The decoding direction described by the spec for the Basic-auth header:
reverse the URL-safe mapping, restore `=` padding, then base64-decode. -/
def base64URLDecodeToBytes (s : String) : List Nat :=
  b64DecodeChars (b64Repad (s.data.map fromUrlSafeChar))

/-! ## SHA-256 (the `crypto` module's `createHash('sha256')`)

Words are `Nat`s kept below `2 ^ 32`; additions are explicitly reduced
modulo `2 ^ 32`. -/

/-- Addition modulo `2 ^ 32`. -/
def add32 (a b : Nat) : Nat := (a + b) % 4294967296

/-- Logical right shift of a 32-bit word. -/
def shr32 (n x : Nat) : Nat := x / 2 ^ n

/-- Right rotation of a 32-bit word. -/
def rotr32 (n x : Nat) : Nat := x / 2 ^ n + x % 2 ^ n * 2 ^ (32 - n)

/-- Bitwise complement of a 32-bit word. -/
def not32 (x : Nat) : Nat := Nat.xor x 4294967295

/-- SHA-256 sigma-0 (message schedule). -/
def smallSigma0 (x : Nat) : Nat := Nat.xor (rotr32 7 x) (Nat.xor (rotr32 18 x) (shr32 3 x))

/-- SHA-256 sigma-1 (message schedule). -/
def smallSigma1 (x : Nat) : Nat := Nat.xor (rotr32 17 x) (Nat.xor (rotr32 19 x) (shr32 10 x))

/-- SHA-256 Sigma-0 (compression). -/
def bigSigma0 (x : Nat) : Nat := Nat.xor (rotr32 2 x) (Nat.xor (rotr32 13 x) (rotr32 22 x))

/-- SHA-256 Sigma-1 (compression). -/
def bigSigma1 (x : Nat) : Nat := Nat.xor (rotr32 6 x) (Nat.xor (rotr32 11 x) (rotr32 25 x))

/-- SHA-256 Ch function. -/
def choose32 (x y z : Nat) : Nat := Nat.xor (Nat.land x y) (Nat.land (not32 x) z)

/-- SHA-256 Maj function. -/
def major32 (x y z : Nat) : Nat :=
  Nat.xor (Nat.land x y) (Nat.xor (Nat.land x z) (Nat.land y z))

/-- SHA-256 round constants. -/
def K256 : List Nat :=
  [1116352408, 1899447441, 3049323471, 3921009573, 961987163, 1508970993,
   2453635748, 2870763221, 3624381080, 310598401, 607225278, 1426881987,
   1925078388, 2162078206, 2614888103, 3248222580, 3835390401, 4022224774,
   264347078, 604807628, 770255983, 1249150122, 1555081692, 1996064986,
   2554220882, 2821834349, 2952996808, 3210313671, 3336571891, 3584528711,
   113926993, 338241895, 666307205, 773529912, 1294757372, 1396182291,
   1695183700, 1986661051, 2177026350, 2456956037, 2730485921, 2820302411,
   3259730800, 3345764771, 3516065817, 3600352804, 4094571909, 275423344,
   430227734, 506948616, 659060556, 883997877, 958139571, 1322822218,
   1537002063, 1747873779, 1955562222, 2024104815, 2227730452, 2361852424,
   2428436474, 2756734187, 3204031479, 3329325298]

/-- SHA-256 initial hash value. -/
def H256 : List Nat :=
  [1779033703, 3144134277, 1013904242, 2773480762,
   1359893119, 2600822924, 528734635, 1541459225]

/-- One message-schedule extension step; the list holds the words produced so
far, most recent first. -/
def scheduleStep (ws : List Nat) : List Nat :=
  (add32 (add32 (smallSigma1 (ws.getD 1 0)) (ws.getD 6 0))
    (add32 (smallSigma0 (ws.getD 14 0)) (ws.getD 15 0))) :: ws

/-- Full 64-word message schedule from the 16 block words. -/
def sha256Schedule (block16 : List Nat) : List Nat :=
  (scheduleStep^[48] block16.reverse).reverse

/-- One SHA-256 compression round on the eight-word state. -/
def compressStep : List Nat → Nat × Nat → List Nat
  | [a, b, c, d, e, f, g, h], kw =>
    let t1 := add32 h (add32 (bigSigma1 e) (add32 (choose32 e f g) (add32 kw.1 kw.2)))
    let t2 := add32 (bigSigma0 a) (major32 a b c)
    [add32 t1 t2, a, b, c, add32 d t1, e, f, g]
  | st, _ => st

/-- Big-endian 8-byte encoding of the bit length. -/
def bytesBE8 (n : Nat) : List Nat :=
  [n / 2 ^ 56 % 256, n / 2 ^ 48 % 256, n / 2 ^ 40 % 256, n / 2 ^ 32 % 256,
   n / 2 ^ 24 % 256, n / 2 ^ 16 % 256, n / 2 ^ 8 % 256, n % 256]

/-- SHA-256 message padding: `0x80`, zeros to 56 mod 64, 8-byte bit length. -/
def padMessage (msg : List Nat) : List Nat :=
  msg ++ 128 :: (List.replicate ((64 - (msg.length + 9) % 64) % 64) 0 ++ bytesBE8 (msg.length * 8))

/-- Big-endian 32-bit words of a byte list. -/
def toWords32 : List Nat → List Nat
  | b0 :: b1 :: b2 :: b3 :: rest =>
    (b0 * 16777216 + b1 * 65536 + b2 * 256 + b3) :: toWords32 rest
  | _ => []

/-- Split a byte list into 64-byte blocks. -/
def chunks64 : List Nat → List (List Nat)
  | [] => []
  | a :: rest => ((a :: rest).take 64) :: chunks64 ((a :: rest).drop 64)
  termination_by l => l.length
  decreasing_by simp [List.length_drop]; omega

/-- Process one 64-byte block of the message. -/
def processBlock (hv : List Nat) (block : List Nat) : List Nat :=
  let ws := sha256Schedule (toWords32 block)
  let st := (K256.zip ws).foldl compressStep hv
  (hv.zip st).map (fun p => add32 p.1 p.2)

/-- SHA-256 digest (32 bytes) of a byte list. -/
def sha256 (msg : List Nat) : List Nat :=
  let final := (chunks64 (padMessage msg)).foldl processBlock H256
  final.flatMap (fun w => [w / 16777216 % 256, w / 65536 % 256, w / 256 % 256, w % 256])

/-- `generateCodeChallenge` (src/utils/index.ts): SHA-256 of the verifier's
UTF-8 bytes, base64-encoded, then `+`→`-`, `/`→`_`, `=` removed. -/
def generateCodeChallenge (verifier : String) : String :=
  String.mk (((b64EncodeBytes (sha256 (utf8Bytes verifier))).map toUrlSafeChar).filter
    (fun c => decide (c ≠ '=')))

/-! ## `URLSearchParams` serialization (application/x-www-form-urlencoded) -/

/-- Uppercase hexadecimal digit. -/
def hexDigit (n : Nat) : Char :=
  if n < 10 then Char.ofNat (48 + n) else Char.ofNat (55 + n)

/-- Bytes serialized verbatim by `URLSearchParams`: ASCII alphanumerics and
`*`, `-`, `.`, `_`. -/
def formUnreservedByte (b : Nat) : Bool :=
  (48 ≤ b ∧ b ≤ 57) ∨ (65 ≤ b ∧ b ≤ 90) ∨ (97 ≤ b ∧ b ≤ 122) ∨ b = 42 ∨ b = 45 ∨ b = 46 ∨ b = 95

/-- Serialization of one UTF-8 byte: space becomes `+`, unreserved bytes pass
through, everything else is percent-encoded. -/
def formEncodeByte (b : Nat) : List Char :=
  if b = 32 then ['+']
  else if formUnreservedByte b then [Char.ofNat b]
  else ['%', hexDigit (b / 16), hexDigit (b % 16)]

/-- `URLSearchParams` serialization of one name or value. -/
def formEncode (s : String) : String :=
  String.mk ((utf8Bytes s).flatMap formEncodeByte)

/-- `URLSearchParams.toString()`: `name=value` pairs joined with `&`. -/
def serializeQuery (pairs : List (String × String)) : String :=
  String.intercalate "&" (pairs.map (fun p => formEncode p.1 ++ "=" ++ formEncode p.2))

/-! ## Service operations -/

/-- JavaScript `x || d` on strings: the empty string (and an absent value)
falls back to `d`. -/
def jsOrStr (v : Option String) (d : String) : String :=
  match v with
  | some s => if s = "" then d else s
  | none => d

/-- Per-call overrides for `generateAuthorizationUrl` (src/types.ts
`AuthorizeParams`). -/
structure AuthorizeParams where
  responseType : Option String := none
  nonce : Option String := none
  state : Option String := none
  codeChallenge : Option String := none
  codeChallengeMethod : Option String := none

/-- The eight query pairs built by `generateAuthorizationUrl`
(src/services/authService.ts), in source order.  `genNonce` and `genState`
are the freshly generated random values, `codeChallenge` the challenge
derived from the freshly generated verifier. -/
def authQueryPairs (s : AuthService) (h : Heap) (params : AuthorizeParams)
    (genNonce genState codeChallenge : String) : List (String × String) :=
  [("response_type", jsOrStr params.responseType "code"),
   ("client_id", s.clientId),
   ("scope", String.intercalate " " (h.data s.scopesRef)),
   ("redirect_uri", s.redirectUri),
   ("nonce", jsOrStr params.nonce genNonce),
   ("state", jsOrStr params.state genState),
   ("code_challenge", jsOrStr params.codeChallenge codeChallenge),
   ("code_challenge_method", jsOrStr params.codeChallengeMethod "S256")]

/-- The authorization URL as a function of the already-derived code
challenge: the verifier itself appears nowhere in this definition. -/
def generateAuthorizationUrlFromChallenge (s : AuthService) (h : Heap)
    (params : AuthorizeParams) (genNonce genState codeChallenge : String) : String :=
  s.endpoints.authorize ++ "?" ++
    serializeQuery (authQueryPairs s h params genNonce genState codeChallenge)

/-- `generateAuthorizationUrl` (src/services/authService.ts).  The generated
randomness (`genNonce`, `genState`, and the PKCE verifier `genVerifier`) is
passed in explicitly; the method derives the challenge from the verifier and
returns only the URL string — the service record is not modified and the
verifier is not returned. -/
def generateAuthorizationUrl (s : AuthService) (h : Heap) (params : AuthorizeParams)
    (genNonce genState genVerifier : String) : String :=
  let codeChallenge := generateCodeChallenge genVerifier
  s.endpoints.authorize ++ "?" ++
    serializeQuery (authQueryPairs s h params genNonce genState codeChallenge)

/-- `generateLogoutUrl` (src/services/authService.ts). -/
def generateLogoutUrl (s : AuthService) (postLogoutRedirectUri : String) : String :=
  s.endpoints.logout ++ "?" ++ serializeQuery [("post_logout_redirect_uri", postLogoutRedirectUri)]

/-- HTTP method of a request issued by the service. -/
inductive HttpMethod where
  | get
  | post
deriving DecidableEq, Repr

/-- One HTTP request as assembled by the service: URL, method, the
`Authorization` header, query parameters, and the form-encoded body pairs. -/
structure HttpRequest where
  method : HttpMethod
  url : String
  authorization : String
  query : List (String × String)
  body : List (String × String)
deriving DecidableEq, Repr

/-- The single POST issued by `getTokens` (src/services/authService.ts):
token endpoint, URL-safe-base64 Basic credentials, form body. -/
def getTokensRequest (s : AuthService) (code codeVerifier : String) : HttpRequest :=
  { method := .post
    url := s.endpoints.token
    authorization := "Basic " ++ base64URLEncode (s.clientId ++ ":" ++ s.clientSecret)
    query := []
    body := [("grant_type", "authorization_code"), ("code", code),
             ("redirect_uri", s.redirectUri), ("code_verifier", codeVerifier)] }

/-- The GET issued by `getUserInfo` (src/services/authService.ts). -/
def getUserInfoRequest (s : AuthService) (accessToken : String) : HttpRequest :=
  { method := .get
    url := s.endpoints.userinfo
    authorization := "Bearer " ++ accessToken
    query := []
    body := [] }

/-- The GET issued by `getConfiabilidadeNiveis` (src/services/authService.ts). -/
def getConfiabilidadeNiveisRequest (s : AuthService) (accessToken cpf : String) : HttpRequest :=
  { method := .get
    url := s.endpoints.confiabilidades ++ "/contas/" ++ cpf ++ "/niveis"
    authorization := "Bearer " ++ accessToken
    query := [("response-type", "ids")]
    body := [] }

/-- The GET issued by `getConfiabilidadeSelos` (src/services/authService.ts). -/
def getConfiabilidadeSelosRequest (s : AuthService) (accessToken cpf : String) : HttpRequest :=
  { method := .get
    url := s.endpoints.confiabilidades ++ "/contas/" ++ cpf ++ "/confiabilidades"
    authorization := "Bearer " ++ accessToken
    query := [("response-type", "ids")]
    body := [] }

/-! ## Error normalization (src/errors/index.ts and the response interceptor) -/

/-- A transport failure as reported by the HTTP client: human-readable
message and, when a response was received, its HTTP status. -/
structure AxiosErrorInfo where
  message : String
  status : Option Nat
deriving DecidableEq, Repr

/-- An exception reaching the response interceptor: either a transport
failure recognized by `axios.isAxiosError`, or any other exception. -/
inductive JsException where
  | axios : AxiosErrorInfo → JsException
  | other : String → JsException
deriving DecidableEq, Repr

/-- `GovBRAuthError` (src/errors/index.ts): message, code tag, optional
HTTP status, and the original error. -/
structure GovBRAuthErrorModel where
  message : String
  code : String
  statusCode : Option Nat
  originalError : JsException
deriving DecidableEq, Repr

/-- What a rejected operation ultimately throws: the wrapped structured
error, or the untouched original exception. -/
inductive Thrown where
  | govbr : GovBRAuthErrorModel → Thrown
  | passthrough : JsException → Thrown
deriving DecidableEq, Repr

/-- The rejection branch of the response interceptor
(src/services/authService.ts `setupAxiosInterceptors`): an axios error is
rewrapped as `GovBRAuthError(error.message, 'API_ERROR',
error.response?.status, error)`; anything else is rethrown as-is. -/
def interceptorOnRejected (e : JsException) : Thrown :=
  match e with
  | .axios info =>
    .govbr { message := info.message, code := "API_ERROR",
             statusCode := info.status, originalError := .axios info }
  | .other tag => .passthrough (.other tag)

/-- Outcome of a request sent through the shared client: the transport
outcome with the interceptor applied to the rejection path. -/
def runClientRequest {α : Type} (outcome : Except JsException α) : Except Thrown α :=
  outcome.mapError interceptorOnRejected

/-- Token response record (src/types.ts). -/
structure TokenResponse where
  access_token : String
  id_token : String
  token_type : String
  expires_in : Nat
deriving DecidableEq, Repr

/-- Trust-record (both `ConfiabilidadeNivel` and `ConfiabilidadeSelo` in
src/types.ts carry the same two fields). -/
structure Confiabilidade where
  id : String
  dataAtualizacao : String
deriving DecidableEq, Repr

/-- `getTokens`' result for a given transport outcome of its single POST:
errors pass through the interceptor, 2xx data is returned unchanged. -/
def getTokensOutcome (s : AuthService) (code codeVerifier : String)
    (resp : Except JsException TokenResponse) : Except Thrown TokenResponse :=
  runClientRequest resp

/-- User record (src/types.ts `UserInfo`); opaque pass-through of the
provider response. -/
structure UserInfo where
  sub : String
  name : String
  email : Option String := none
  phone_number : Option String := none
  email_verified : Option Bool := none
  phone_number_verified : Option Bool := none
  picture : Option String := none
  amr : List String := []
  social_name : Option String := none
  cnpj : Option String := none
deriving DecidableEq, Repr

/-- `getUserInfo`'s result for a given transport outcome. -/
def getUserInfoOutcome (s : AuthService) (accessToken : String)
    (resp : Except JsException UserInfo) : Except Thrown UserInfo :=
  runClientRequest resp

/-- `getConfiabilidadeNiveis`' result for a given transport outcome. -/
def getConfiabilidadeNiveisOutcome (s : AuthService) (accessToken cpf : String)
    (resp : Except JsException (List Confiabilidade)) : Except Thrown (List Confiabilidade) :=
  runClientRequest resp

/-- `getConfiabilidadeSelos`' result for a given transport outcome. -/
def getConfiabilidadeSelosOutcome (s : AuthService) (accessToken cpf : String)
    (resp : Except JsException (List Confiabilidade)) : Except Thrown (List Confiabilidade) :=
  runClientRequest resp

/-! ## Concrete fixtures used by witnesses and counterexamples -/

/-- A caller configuration whose scopes array lives at heap address 0. -/
def cfgShared : GovBRConfig :=
  { clientId := "client-id", clientSecret := "client-secret",
    redirectUri := "https://app.example/callback", environment := none, scopes := some 0 }

/-- Heap whose address 0 holds the caller's scopes array `["openid"]`. -/
def heapShared : Heap := { data := fun _ => ["openid"], next := 1 }

/-- The service constructed from `cfgShared` over `heapShared`. -/
def svcShared : AuthService :=
  { clientId := "client-id", clientSecret := "client-secret",
    redirectUri := "https://app.example/callback", environment := .production,
    scopesRef := 0, endpoints := ENDPOINTS .production }

/-- A configuration omitting environment and scopes. -/
def cfgDefaults : GovBRConfig :=
  { clientId := "client-id", clientSecret := "client-secret",
    redirectUri := "https://app.example/callback" }

/-- An empty heap. -/
def heapEmpty : Heap := { data := fun _ => [], next := 0 }

/-- A staging configuration (scopes at address 0). -/
def cfgStaging : GovBRConfig :=
  { clientId := "client-id", clientSecret := "client-secret",
    redirectUri := "https://app.example/callback", environment := some .staging,
    scopes := some 0 }

/-- The service constructed from `cfgStaging` over `heapShared`. -/
def svcStaging : AuthService :=
  { clientId := "client-id", clientSecret := "client-secret",
    redirectUri := "https://app.example/callback", environment := .staging,
    scopesRef := 0, endpoints := ENDPOINTS .staging }

/-- A caller configuration supplying the empty scopes array at address 0. -/
def cfgEmptyScopes : GovBRConfig :=
  { clientId := "client-id", clientSecret := "client-secret",
    redirectUri := "https://app.example/callback", environment := none, scopes := some 0 }

/-- Heap whose address 0 holds the empty array. -/
def heapEmptyScopes : Heap := { data := fun _ => [], next := 1 }

/-- The service constructed from `cfgEmptyScopes` over `heapEmptyScopes`. -/
def svcEmptyScopes : AuthService :=
  { clientId := "client-id", clientSecret := "client-secret",
    redirectUri := "https://app.example/callback", environment := .production,
    scopesRef := 0, endpoints := ENDPOINTS .production }

/-- Fully supplied per-call parameters (all non-empty). -/
def paramsFixed : AuthorizeParams :=
  { responseType := some "code", nonce := some "n1", state := some "s1",
    codeChallenge := some "cc", codeChallengeMethod := some "S256" }

/-! ## Helper lemmas: byte bounds, round-trip, constructor shape -/

theorem charToNat_lt (c : Char) : c.toNat < 1114112 := by
  have h : c.val.toNat < 55296 ∨ (57344 ≤ c.val.toNat ∧ c.val.toNat < 1114112) := c.valid
  have he : c.toNat = c.val.toNat := rfl
  omega

theorem utf8EncodeCharNat_lt (n : Nat) (h : n < 1114112) :
    ∀ b ∈ utf8EncodeCharNat n, b < 256 := by
  intro b hb
  unfold utf8EncodeCharNat at hb
  split_ifs at hb with h1 h2 h3
  · simp only [List.mem_cons, List.not_mem_nil, or_false] at hb
    omega
  · simp only [List.mem_cons, List.not_mem_nil, or_false] at hb
    rcases hb with hb | hb <;> omega
  · simp only [List.mem_cons, List.not_mem_nil, or_false] at hb
    rcases hb with hb | hb | hb <;> omega
  · simp only [List.mem_cons, List.not_mem_nil, or_false] at hb
    rcases hb with hb | hb | hb | hb <;> omega

theorem utf8Bytes_lt (s : String) : ∀ b ∈ utf8Bytes s, b < 256 := by
  intro b hb
  unfold utf8Bytes at hb
  rw [List.mem_flatMap] at hb
  obtain ⟨c, _, hbc⟩ := hb
  exact utf8EncodeCharNat_lt c.toNat (charToNat_lt c) b hbc

theorem sha256_bytes_lt (msg : List Nat) : ∀ b ∈ sha256 msg, b < 256 := by
  intro b hb
  simp only [sha256] at hb
  rw [List.mem_flatMap] at hb
  obtain ⟨w, _, hbw⟩ := hb
  simp only [List.mem_cons, List.not_mem_nil, or_false] at hbw
  rcases hbw with h | h | h | h <;> omega

/-! ## Helper lemmas: the base64 alphabet -/

theorem b64Index_b64Char : ∀ n, n < 64 → b64Index (b64Char n) = n := by decide

theorem b64Char_ne_pad : ∀ n, n < 64 → b64Char n ≠ '=' := by decide

theorem urlSafe_b64Char_ne_pad : ∀ n, n < 64 → toUrlSafeChar (b64Char n) ≠ '=' := by decide

theorem from_to_urlSafe_b64Char :
    ∀ n, n < 64 → fromUrlSafeChar (toUrlSafeChar (b64Char n)) = b64Char n := by decide

theorem urlSafe_b64Char_avoids :
    ∀ n, n < 64 → toUrlSafeChar (b64Char n) ≠ '+' ∧ toUrlSafeChar (b64Char n) ≠ '/' ∧
      toUrlSafeChar (b64Char n) ≠ '=' := by decide

theorem toUrlSafePad : toUrlSafeChar '=' = '=' := rfl

/-- Induction on byte lists in the 3-byte groups used by base64. -/
theorem chunk3Induction {P : List Nat → Prop} (h0 : P []) (h1 : ∀ a, P [a])
    (h2 : ∀ a b, P [a, b]) (h3 : ∀ a b c rest, P rest → P (a :: b :: c :: rest)) :
    ∀ bs, P bs
  | [] => h0
  | [a] => h1 a
  | [a, b] => h2 a b
  | a :: b :: c :: rest => h3 a b c rest (chunk3Induction h0 h1 h2 h3 rest)

/-- Every character produced by the base64 encoder is an alphabet character
or the padding character. -/
theorem mem_b64EncodeBytes (bs : List Nat) (hb : ∀ b ∈ bs, b < 256) :
    ∀ c ∈ b64EncodeBytes bs, (∃ n, n < 64 ∧ c = b64Char n) ∨ c = '=' := by
  induction bs using chunk3Induction with
  | h0 => intro c hc; simp [b64EncodeBytes] at hc
  | h1 a =>
    intro c hc
    have ha : a < 256 := hb a (by simp)
    simp only [b64EncodeBytes, List.mem_cons, List.not_mem_nil, or_false] at hc
    rcases hc with hc | hc | hc | hc
    · exact Or.inl ⟨a / 4, by omega, hc⟩
    · exact Or.inl ⟨a % 4 * 16, by omega, hc⟩
    · exact Or.inr hc
    · exact Or.inr hc
  | h2 a b =>
    intro c hc
    have ha : a < 256 := hb a (by simp)
    have hb2 : b < 256 := hb b (by simp)
    simp only [b64EncodeBytes, List.mem_cons, List.not_mem_nil, or_false] at hc
    rcases hc with hc | hc | hc | hc
    · exact Or.inl ⟨a / 4, by omega, hc⟩
    · exact Or.inl ⟨a % 4 * 16 + b / 16, by omega, hc⟩
    · exact Or.inl ⟨b % 16 * 4, by omega, hc⟩
    · exact Or.inr hc
  | h3 a b c2 rest ih =>
    intro c hc
    have ha : a < 256 := hb a (by simp)
    have hbb : b < 256 := hb b (by simp)
    have hcc : c2 < 256 := hb c2 (by simp)
    simp only [b64EncodeBytes, List.mem_cons] at hc
    rcases hc with hc | hc | hc | hc | hc
    · exact Or.inl ⟨a / 4, by omega, hc⟩
    · exact Or.inl ⟨a % 4 * 16 + b / 16, by omega, hc⟩
    · exact Or.inl ⟨b % 16 * 4 + c2 / 64, by omega, hc⟩
    · exact Or.inl ⟨c2 % 64, by omega, hc⟩
    · exact ih (fun x hx => hb x (by simp [hx])) c hc

/-- Re-padding commutes with removing a full leading 4-character group. -/
theorem b64Repad_cons4 (y1 y2 y3 y4 : Char) (l : List Char) :
    b64Repad (y1 :: y2 :: y3 :: y4 :: l) = y1 :: y2 :: y3 :: y4 :: b64Repad l := by
  have h4 : (y1 :: y2 :: y3 :: y4 :: l).length % 4 = l.length % 4 := by
    simp [List.length_cons]
    omega
  simp [b64Repad, h4, List.cons_append]
  omega

/-- Undoing the URL-safe mapping, re-padding, and base64-decoding recovers
the bytes that were URL-safe-base64-encoded. -/
theorem b64_urlSafe_roundtrip (bs : List Nat) (hb : ∀ b ∈ bs, b < 256) :
    b64DecodeChars (b64Repad
      ((((b64EncodeBytes bs).map toUrlSafeChar).filter
        (fun c => decide (c ≠ '='))).map fromUrlSafeChar)) = bs := by
  induction bs using chunk3Induction with
  | h0 => rfl
  | h1 a =>
    have ha : a < 256 := hb a (by simp)
    have l1 : a / 4 < 64 := by omega
    have l2 : a % 4 * 16 < 64 := by omega
    simp only [b64EncodeBytes, List.map_cons, List.map_nil, List.filter_cons, List.filter_nil,
      urlSafe_b64Char_ne_pad _ l1, urlSafe_b64Char_ne_pad _ l2, toUrlSafePad,
      reduceIte, decide_not, decide_False, decide_True, Bool.not_false, Bool.not_true,
      if_true, if_false, from_to_urlSafe_b64Char _ l1, from_to_urlSafe_b64Char _ l2]
    have hrep : b64Repad [b64Char (a / 4), b64Char (a % 4 * 16)] =
        [b64Char (a / 4), b64Char (a % 4 * 16), '=', '='] := rfl
    simp only [Bool.false_eq_true, if_false, List.map_nil]
    rw [hrep]
    simp only [b64DecodeChars, reduceIte, b64Index_b64Char _ l1, b64Index_b64Char _ l2]
    simp only [List.cons.injEq, and_true]
    omega
  | h2 a b =>
    have ha : a < 256 := hb a (by simp)
    have hb2 : b < 256 := hb b (by simp)
    have l1 : a / 4 < 64 := by omega
    have l2 : a % 4 * 16 + b / 16 < 64 := by omega
    have l3 : b % 16 * 4 < 64 := by omega
    simp only [b64EncodeBytes, List.map_cons, List.map_nil, List.filter_cons, List.filter_nil,
      urlSafe_b64Char_ne_pad _ l1, urlSafe_b64Char_ne_pad _ l2, urlSafe_b64Char_ne_pad _ l3,
      toUrlSafePad, reduceIte, decide_not, decide_False, decide_True,
      Bool.not_false, Bool.not_true, if_true, if_false,
      from_to_urlSafe_b64Char _ l1, from_to_urlSafe_b64Char _ l2, from_to_urlSafe_b64Char _ l3]
    have hrep : b64Repad [b64Char (a / 4), b64Char (a % 4 * 16 + b / 16), b64Char (b % 16 * 4)] =
        [b64Char (a / 4), b64Char (a % 4 * 16 + b / 16), b64Char (b % 16 * 4), '='] := rfl
    simp only [Bool.false_eq_true, if_false, List.map_nil]
    rw [hrep]
    simp only [b64DecodeChars, b64Char_ne_pad _ l3, reduceIte,
      b64Index_b64Char _ l1, b64Index_b64Char _ l2, b64Index_b64Char _ l3]
    simp only [List.cons.injEq, and_true]
    omega
  | h3 a b c rest ih =>
    have ha : a < 256 := hb a (by simp)
    have hb2 : b < 256 := hb b (by simp)
    have hc : c < 256 := hb c (by simp)
    have l1 : a / 4 < 64 := by omega
    have l2 : a % 4 * 16 + b / 16 < 64 := by omega
    have l3 : b % 16 * 4 + c / 64 < 64 := by omega
    have l4 : c % 64 < 64 := by omega
    have ihh := ih (fun x hx => hb x (by simp [hx]))
    simp only [b64EncodeBytes, List.map_cons, List.filter_cons,
      urlSafe_b64Char_ne_pad _ l1, urlSafe_b64Char_ne_pad _ l2,
      urlSafe_b64Char_ne_pad _ l3, urlSafe_b64Char_ne_pad _ l4,
      reduceIte, decide_not, decide_False, decide_True, Bool.not_false, Bool.not_true,
      if_true, if_false, from_to_urlSafe_b64Char _ l1, from_to_urlSafe_b64Char _ l2,
      from_to_urlSafe_b64Char _ l3, from_to_urlSafe_b64Char _ l4]
    rw [b64Repad_cons4]
    simp only [b64DecodeChars, b64Char_ne_pad _ l3, b64Char_ne_pad _ l4, reduceIte,
      b64Index_b64Char _ l1, b64Index_b64Char _ l2, b64Index_b64Char _ l3,
      b64Index_b64Char _ l4]
    simp only [decide_not] at ihh
    rw [ihh]
    simp only [List.cons.injEq, and_true]
    omega


/-- Decoding as the spec describes recovers exactly the UTF-8 bytes that
`base64URLEncode` encoded. -/
theorem base64URLDecode_encode (s : String) :
    base64URLDecodeToBytes (base64URLEncode s) = utf8Bytes s :=
  b64_urlSafe_roundtrip (utf8Bytes s) (utf8Bytes_lt s)

/-- Characters surviving the URL-safe mapping and `=`-stripping avoid
`+`, `/`, and `=`. -/
theorem urlSafeStripped_chars (bs : List Nat) (hbs : ∀ b ∈ bs, b < 256) :
    ∀ c ∈ ((b64EncodeBytes bs).map toUrlSafeChar).filter (fun c => decide (c ≠ '=')),
      c ≠ '+' ∧ c ≠ '/' ∧ c ≠ '=' := by
  intro c hc
  rw [List.mem_filter] at hc
  obtain ⟨hmem, hpred⟩ := hc
  rw [List.mem_map] at hmem
  obtain ⟨c0, hc0, rfl⟩ := hmem
  rcases mem_b64EncodeBytes _ hbs c0 hc0 with ⟨n, hn, rfl⟩ | rfl
  · exact urlSafe_b64Char_avoids n hn
  · simp [toUrlSafePad] at hpred

/-- The characters of a generated code challenge avoid `+`, `/`, and `=`. -/
theorem generateCodeChallenge_chars (v : String) :
    ∀ c ∈ (generateCodeChallenge v).data, c ≠ '+' ∧ c ≠ '/' ∧ c ≠ '=' :=
  fun c hc => urlSafeStripped_chars _ (sha256_bytes_lt _) c hc

/-- Shape of a successful construction: the three required fields were
non-empty, the scalar fields are copied, environment and endpoints are
resolved, and the scopes reference is either the caller's array (aliased,
heap unchanged) or a fresh address holding `DEFAULT_SCOPES`. -/
theorem mkAuthService_ok {config : GovBRConfig} {h : Heap} {s : AuthService} {h' : Heap}
    (hc : mkAuthService config h = .ok (s, h')) :
    config.clientId ≠ "" ∧ config.clientSecret ≠ "" ∧ config.redirectUri ≠ "" ∧
    s.clientId = config.clientId ∧ s.clientSecret = config.clientSecret ∧
    s.redirectUri = config.redirectUri ∧
    s.environment = config.environment.getD .production ∧
    s.endpoints = ENDPOINTS s.environment ∧
    ((∃ r, config.scopes = some r ∧ s.scopesRef = r ∧ h' = h) ∨
     (config.scopes = none ∧ s.scopesRef = h.next ∧ h'.data h.next = DEFAULT_SCOPES ∧
      h'.next = h.next + 1 ∧ ∀ r, r ≠ h.next → h'.data r = h.data r)) := by
  unfold mkAuthService at hc
  split_ifs at hc with hif
  push_neg at hif
  obtain ⟨h1, h2, h3⟩ := hif
  cases hcs : config.scopes with
  | some r =>
    rw [hcs] at hc
    simp only [Except.ok.injEq, Prod.mk.injEq] at hc
    obtain ⟨hs, hh⟩ := hc
    subst hh
    subst hs
    exact ⟨h1, h2, h3, rfl, rfl, rfl, rfl, rfl, Or.inl ⟨r, rfl, rfl, rfl⟩⟩
  | none =>
    rw [hcs] at hc
    simp only [Except.ok.injEq, Prod.mk.injEq] at hc
    obtain ⟨hs, hh⟩ := hc
    subst hh
    subst hs
    refine ⟨h1, h2, h3, rfl, rfl, rfl, rfl, rfl, Or.inr ⟨rfl, rfl, by simp, rfl, ?_⟩⟩
    intro r hr
    simp [hr]

/-- Construction can only fail with the fixed configuration-error message,
and exactly when a required field is falsy. -/
theorem mkAuthService_error_iff (config : GovBRConfig) (h : Heap) :
    (∃ e, mkAuthService config h = .error e) ↔
      (config.clientId = "" ∨ config.clientSecret = "" ∨ config.redirectUri = "") := by
  unfold mkAuthService
  split_ifs with hif
  · exact ⟨fun _ => hif, fun _ => ⟨_, rfl⟩⟩
  · constructor
    · rintro ⟨e, he⟩
      cases hcs : config.scopes <;> rw [hcs] at he <;> simp at he
    · intro hor
      exact absurd hor hif

theorem strAppend_assoc (a b c : String) : a ++ b ++ c = a ++ (b ++ c) := by
  apply String.ext
  simp [String.data_append]

/-- `generateLogoutUrl` in the shape described by the spec. -/
theorem generateLogoutUrl_eq (s : AuthService) (uri : String) :
    generateLogoutUrl s uri =
      s.endpoints.logout ++ "?post_logout_redirect_uri=" ++ formEncode uri := by
  have hsing :
      String.intercalate "&"
        [formEncode "post_logout_redirect_uri" ++ "=" ++ formEncode uri] =
        formEncode "post_logout_redirect_uri" ++ "=" ++ formEncode uri := rfl
  rw [generateLogoutUrl, serializeQuery, List.map_cons, List.map_nil, hsing]
  rw [← strAppend_assoc (s.endpoints.logout ++ "?")
    (formEncode "post_logout_redirect_uri" ++ "=") (formEncode uri)]
  congr 1
  rw [strAppend_assoc]
  congr 1

/-- Lookup of each fixed key in the authorization query pairs. -/
theorem authQueryPairs_lookup_scope (s : AuthService) (h : Heap) (params : AuthorizeParams)
    (gn gs cch : String) :
    (authQueryPairs s h params gn gs cch).lookup "scope" =
      some (String.intercalate " " (h.data s.scopesRef)) := rfl

theorem authQueryPairs_lookup_state (s : AuthService) (h : Heap) (params : AuthorizeParams)
    (gn gs cch : String) :
    (authQueryPairs s h params gn gs cch).lookup "state" = some (jsOrStr params.state gs) := rfl

theorem authQueryPairs_lookup_nonce (s : AuthService) (h : Heap) (params : AuthorizeParams)
    (gn gs cch : String) :
    (authQueryPairs s h params gn gs cch).lookup "nonce" = some (jsOrStr params.nonce gn) := rfl

theorem authQueryPairs_lookup_response_type (s : AuthService) (h : Heap)
    (params : AuthorizeParams) (gn gs cch : String) :
    (authQueryPairs s h params gn gs cch).lookup "response_type" =
      some (jsOrStr params.responseType "code") := rfl

theorem authQueryPairs_lookup_challenge (s : AuthService) (h : Heap) (params : AuthorizeParams)
    (gn gs cch : String) :
    (authQueryPairs s h params gn gs cch).lookup "code_challenge" =
      some (jsOrStr params.codeChallenge cch) := rfl

theorem authQueryPairs_lookup_method (s : AuthService) (h : Heap) (params : AuthorizeParams)
    (gn gs cch : String) :
    (authQueryPairs s h params gn gs cch).lookup "code_challenge_method" =
      some (jsOrStr params.codeChallengeMethod "S256") := rfl

theorem authQueryPairs_lookup_client_id (s : AuthService) (h : Heap) (params : AuthorizeParams)
    (gn gs cch : String) :
    (authQueryPairs s h params gn gs cch).lookup "client_id" = some s.clientId := rfl

theorem authQueryPairs_lookup_redirect_uri (s : AuthService) (h : Heap)
    (params : AuthorizeParams) (gn gs cch : String) :
    (authQueryPairs s h params gn gs cch).lookup "redirect_uri" = some s.redirectUri := rfl

/-! ## Claims -/

/-- C2: Construction of the service fails (throws a configuration error) if
and only if at least one of clientId, clientSecret, redirectUri is empty or
absent; for every configuration in which all three are non-empty,
construction succeeds with environment defaulting to production when omitted
and scopes defaulting to `["openid","email","profile","govbr_confiabilidades"]`
when omitted. -/
theorem claim_C2 (config : GovBRConfig) (h : Heap) :
    ((∃ e, mkAuthService config h = .error e) ↔
      (config.clientId = "" ∨ config.clientSecret = "" ∨ config.redirectUri = "")) ∧
    (config.clientId ≠ "" → config.clientSecret ≠ "" → config.redirectUri ≠ "" →
      ∃ s h', mkAuthService config h = .ok (s, h') ∧
        (config.environment = none → s.environment = .production) ∧
        (config.scopes = none → h'.data s.scopesRef = DEFAULT_SCOPES)) := by
  refine ⟨mkAuthService_error_iff config h, ?_⟩
  intro h1 h2 h3
  unfold mkAuthService
  split_ifs with hif
  · exact absurd hif (by simp [h1, h2, h3])
  · cases hcs : config.scopes with
    | some r =>
      refine ⟨_, _, rfl, ?_, ?_⟩
      · intro he
        simp [he]
      · intro hx
        simp [hcs] at hx
    | none =>
      refine ⟨_, _, rfl, ?_, ?_⟩
      · intro he
        simp [he]
      · intro _
        simp

/-- C2 witness: a concrete configuration with all three required fields
non-empty and both optional fields omitted constructs successfully with the
defaults applied. -/
theorem claim_C2_witness :
    ∃ s h', mkAuthService cfgDefaults heapEmpty = .ok (s, h') ∧
      (cfgDefaults.environment = none → s.environment = .production) ∧
      (cfgDefaults.scopes = none → h'.data s.scopesRef = DEFAULT_SCOPES) :=
  (claim_C2 cfgDefaults heapEmpty).2 (by decide) (by decide) (by decide)

/-- C1 counterexample: the claim that mutating a caller-supplied scopes
array after construction does not change the scope value in
`generateAuthorizationUrl`'s query string is false: the constructor stores
the caller's array by reference, so an in-place mutation of that array
changes the subsequently generated URL. -/
theorem claim_C1_counterexample :
    mkAuthService cfgShared heapShared = .ok (svcShared, heapShared) ∧
    generateAuthorizationUrl svcShared (heapWrite heapShared 0 ["mutated"]) paramsFixed
        "gennonce" "genstate" "v" ≠
      generateAuthorizationUrl svcShared heapShared paramsFixed "gennonce" "genstate" "v" := by
  refine ⟨rfl, ?_⟩
  decide

/-- C1 amended: the scalar configuration fields, the resolved environment and
the endpoint table are copied at construction and are unaffected by anything
the caller later does; when scopes were omitted the service's scope array is
a fresh copy of the defaults, unaffected by in-place mutation of any array
the caller held before construction; but when the caller supplied a scopes
array, the service aliases it, and an in-place mutation of that array changes
the scope value placed in `generateAuthorizationUrl`'s query string. -/
theorem claim_C1_amended (config : GovBRConfig) (h : Heap) (s : AuthService) (h' : Heap)
    (hc : mkAuthService config h = .ok (s, h')) :
    (s.clientId = config.clientId ∧ s.clientSecret = config.clientSecret ∧
     s.redirectUri = config.redirectUri ∧
     s.environment = config.environment.getD .production ∧
     s.endpoints = ENDPOINTS s.environment) ∧
    (config.scopes = none → ∀ r, r < h.next → ∀ v params gn gs cch,
      (authQueryPairs s (heapWrite h' r v) params gn gs cch).lookup "scope" =
        some (String.intercalate " " DEFAULT_SCOPES)) ∧
    (∀ r, config.scopes = some r → ∀ v params gn gs cch,
      (authQueryPairs s (heapWrite h' r v) params gn gs cch).lookup "scope" =
        some (String.intercalate " " v)) := by
  obtain ⟨-, -, -, hcid, hcsec, hcred, henv, hend, hsc⟩ := mkAuthService_ok hc
  refine ⟨⟨hcid, hcsec, hcred, henv, hend⟩, ?_, ?_⟩
  · intro hnone r hr v params gn gs cch
    rcases hsc with ⟨r0, hr0, -, -⟩ | ⟨-, href, hdef, -, -⟩
    · rw [hnone] at hr0
      cases hr0
    · have hdata : (heapWrite h' r v).data s.scopesRef = DEFAULT_SCOPES := by
        rw [href]
        show (if h.next = r then v else h'.data h.next) = DEFAULT_SCOPES
        rw [if_neg (by omega), hdef]
      rw [authQueryPairs_lookup_scope, hdata]
  · intro r hsome v params gn gs cch
    rcases hsc with ⟨r0, hr0, href, hh⟩ | ⟨hnone, -⟩
    · rw [hsome] at hr0
      injection hr0 with hr0
      have hdata : (heapWrite h' r v).data s.scopesRef = v := by
        rw [href, ← hr0]
        show (if r = r then v else h'.data r) = v
        rw [if_pos rfl]
      rw [authQueryPairs_lookup_scope, hdata]
    · rw [hsome] at hnone
      cases hnone

/-- C1 amended, witness: for the concrete aliased construction, mutating the
caller's array at address 0 makes the scope value `"w1 w2"`. -/
theorem claim_C1_amended_witness :
    (authQueryPairs svcShared (heapWrite heapShared 0 ["w1", "w2"]) paramsFixed
      "gennonce" "genstate" "cch").lookup "scope" = some "w1 w2" :=
  ((claim_C1_amended cfgShared heapShared svcShared heapShared rfl).2.2 0 rfl
    ["w1", "w2"] paramsFixed "gennonce" "genstate" "cch").trans (by decide)

/-- C10: if the caller passes scopes as the empty list, the default
four-scope list is not applied (defaulting triggers only when the field is
absent): the resolved scope list is empty and the scope query value in every
`generateAuthorizationUrl` result is the empty string. -/
theorem claim_C10 (config : GovBRConfig) (h : Heap) (s : AuthService) (h' : Heap) (r : Nat)
    (hc : mkAuthService config h = .ok (s, h')) (hr : config.scopes = some r)
    (he : h.data r = []) (params : AuthorizeParams) (gn gs cch : String) :
    h' = h ∧ s.scopesRef = r ∧ h'.data s.scopesRef = [] ∧
    (authQueryPairs s h' params gn gs cch).lookup "scope" = some "" := by
  obtain ⟨-, -, -, -, -, -, -, -, hsc⟩ := mkAuthService_ok hc
  rcases hsc with ⟨r0, hr0, href, hh⟩ | ⟨hnone, -⟩
  · rw [hr] at hr0
    injection hr0 with hr0
    have hdata : h'.data s.scopesRef = [] := by
      rw [hh, href, ← hr0]
      exact he
    refine ⟨hh, ?_, hdata, ?_⟩
    · rw [href, ← hr0]
    · rw [authQueryPairs_lookup_scope, hdata]
      rfl
  · rw [hr] at hnone
    cases hnone

/-- C10 witness: the concrete empty-scopes construction yields an empty
scope list and an empty scope query value. -/
theorem claim_C10_witness :
    heapEmptyScopes = heapEmptyScopes ∧ svcEmptyScopes.scopesRef = 0 ∧
    heapEmptyScopes.data svcEmptyScopes.scopesRef = [] ∧
    (authQueryPairs svcEmptyScopes heapEmptyScopes paramsFixed "gn" "gs" "cch").lookup "scope" =
      some "" :=
  claim_C10 cfgEmptyScopes heapEmptyScopes svcEmptyScopes heapEmptyScopes 0 rfl rfl rfl
    paramsFixed "gn" "gs" "cch"

/-- C3: for every call to `generateAuthorizationUrl` the internally generated
PKCE verifier is used only to derive the code challenge placed in the URL:
the returned string factors through `generateCodeChallenge`, so it equals the
result of the verifier-free builder `generateAuthorizationUrlFromChallenge`
applied to the derived challenge; the call returns only this string (the
verifier is not part of the return value and the immutable service record
stores nothing), so two verifiers with the same challenge produce the same
URL and the service exposes nothing else derived from the verifier. -/
theorem claim_C3 (s : AuthService) (h : Heap) (params : AuthorizeParams)
    (gn gs gv : String) :
    generateAuthorizationUrl s h params gn gs gv =
      generateAuthorizationUrlFromChallenge s h params gn gs (generateCodeChallenge gv) := rfl

/-- C4: `getTokens` issues exactly one POST, to the configured token
endpoint, whose Authorization header is `Basic ` followed by a value that
decodes (URL-safe mapping reversed, padding restored, base64-decoded) to the
UTF-8 bytes of `clientId ++ ":" ++ clientSecret`, and whose form body is
exactly grant_type/code/redirect_uri/code_verifier. -/
theorem claim_C4 (config : GovBRConfig) (h : Heap) (s : AuthService) (h' : Heap)
    (hc : mkAuthService config h = .ok (s, h')) (code verifier : String) :
    (getTokensRequest s code verifier).method = .post ∧
    (getTokensRequest s code verifier).url = s.endpoints.token ∧
    (∃ v, (getTokensRequest s code verifier).authorization = "Basic " ++ v ∧
      base64URLDecodeToBytes v = utf8Bytes (config.clientId ++ ":" ++ config.clientSecret)) ∧
    (getTokensRequest s code verifier).body =
      [("grant_type", "authorization_code"), ("code", code),
       ("redirect_uri", config.redirectUri), ("code_verifier", verifier)] := by
  obtain ⟨-, -, -, hcid, hcsec, hcred, -, -, -⟩ := mkAuthService_ok hc
  refine ⟨rfl, rfl, ⟨base64URLEncode (s.clientId ++ ":" ++ s.clientSecret), rfl, ?_⟩, ?_⟩
  · rw [hcid, hcsec]
    exact base64URLDecode_encode _
  · show [("grant_type", "authorization_code"), ("code", code),
      ("redirect_uri", s.redirectUri), ("code_verifier", verifier)] = _
    rw [hcred]

/-- C4 witness: the theorem applied to the concrete shared fixture. -/
theorem claim_C4_witness :
    (getTokensRequest svcShared "auth-code" "ver").method = .post ∧
    (getTokensRequest svcShared "auth-code" "ver").url = svcShared.endpoints.token ∧
    (∃ v, (getTokensRequest svcShared "auth-code" "ver").authorization = "Basic " ++ v ∧
      base64URLDecodeToBytes v =
        utf8Bytes (cfgShared.clientId ++ ":" ++ cfgShared.clientSecret)) ∧
    (getTokensRequest svcShared "auth-code" "ver").body =
      [("grant_type", "authorization_code"), ("code", "auth-code"),
       ("redirect_uri", cfgShared.redirectUri), ("code_verifier", "ver")] :=
  claim_C4 cfgShared heapShared svcShared heapShared rfl "auth-code" "ver"

/-- C5: the code challenge derivation is a pure deterministic function of
the verifier; it equals the SHA-256 digest of the verifier's UTF-8 bytes,
base64-encoded with `+`→`-`, `/`→`_` and `=` stripped; and its output
contains no `+`, `/`, or `=` characters. -/
theorem claim_C5 (v : String) :
    generateCodeChallenge v = generateCodeChallenge v ∧
    generateCodeChallenge v =
      String.mk (((b64EncodeBytes (sha256 (utf8Bytes v))).map toUrlSafeChar).filter
        (fun c => decide (c ≠ '='))) ∧
    ((generateCodeChallenge v).data.all
      (fun c => !(c == '+') && !(c == '/') && !(c == '='))) = true := by
  refine ⟨rfl, rfl, ?_⟩
  rw [List.all_eq_true]
  intro c hcmem
  obtain ⟨h1, h2, h3⟩ := generateCodeChallenge_chars v c hcmem
  simp [h1, h2, h3]

/-- C6 counterexample: the claim that each key's value is taken verbatim from
the caller-supplied params whenever provided is false: a provided-but-empty
`state` is falsy in the JavaScript fallback, so the generated state is used
instead of the provided empty string. -/
theorem claim_C6_counterexample :
    mkAuthService cfgShared heapShared = .ok (svcShared, heapShared) ∧
    (authQueryPairs svcShared heapShared
        { state := some "", nonce := some "n1", codeChallenge := some "cc" }
        "gennonce" "genstate" "chal").lookup "state" = some "genstate" ∧
    ("genstate" : String) ≠ "" := by
  exact ⟨rfl, rfl, by decide⟩

/-- C6 amended: the returned string is the authorize endpoint, `?`, and the
serialization of exactly the eight keys response_type, client_id, scope,
redirect_uri, nonce, state, code_challenge, code_challenge_method; each
key's value is the caller-supplied param when that param is provided and
non-empty (a provided-but-empty param is falsy and falls back to the
generated or default value), otherwise the generated or default value
(response_type `code`, code_challenge_method `S256`, scope the configured
scopes joined by spaces); values are form-url-encoded when serialized. -/
theorem claim_C6_amended (config : GovBRConfig) (h : Heap) (s : AuthService) (h' : Heap)
    (hc : mkAuthService config h = .ok (s, h')) (params : AuthorizeParams) (gn gs gv : String) :
    generateAuthorizationUrl s h' params gn gs gv =
      s.endpoints.authorize ++ "?" ++
        serializeQuery (authQueryPairs s h' params gn gs (generateCodeChallenge gv)) ∧
    (authQueryPairs s h' params gn gs (generateCodeChallenge gv)).map Prod.fst =
      ["response_type", "client_id", "scope", "redirect_uri", "nonce", "state",
       "code_challenge", "code_challenge_method"] ∧
    (∀ v, params.state = some v → v ≠ "" →
      (authQueryPairs s h' params gn gs (generateCodeChallenge gv)).lookup "state" = some v) ∧
    (∀ v, params.nonce = some v → v ≠ "" →
      (authQueryPairs s h' params gn gs (generateCodeChallenge gv)).lookup "nonce" = some v) ∧
    (authQueryPairs s h' params gn gs (generateCodeChallenge gv)).lookup "scope" =
      some (String.intercalate " " (h'.data s.scopesRef)) ∧
    (params.responseType = none →
      (authQueryPairs s h' params gn gs (generateCodeChallenge gv)).lookup "response_type" =
        some "code") ∧
    (params.codeChallengeMethod = none →
      (authQueryPairs s h' params gn gs (generateCodeChallenge gv)).lookup
        "code_challenge_method" = some "S256") ∧
    (params.codeChallenge = none →
      (authQueryPairs s h' params gn gs (generateCodeChallenge gv)).lookup "code_challenge" =
        some (generateCodeChallenge gv)) ∧
    (authQueryPairs s h' params gn gs (generateCodeChallenge gv)).lookup "client_id" =
      some s.clientId ∧
    (authQueryPairs s h' params gn gs (generateCodeChallenge gv)).lookup "redirect_uri" =
      some s.redirectUri := by
  refine ⟨rfl, rfl, ?_, ?_, authQueryPairs_lookup_scope s h' params gn gs _, ?_, ?_, ?_,
    authQueryPairs_lookup_client_id s h' params gn gs _,
    authQueryPairs_lookup_redirect_uri s h' params gn gs _⟩
  · intro v hv hne
    rw [authQueryPairs_lookup_state, hv]
    simp [jsOrStr, hne]
  · intro v hv hne
    rw [authQueryPairs_lookup_nonce, hv]
    simp [jsOrStr, hne]
  · intro hv
    rw [authQueryPairs_lookup_response_type, hv]
    rfl
  · intro hv
    rw [authQueryPairs_lookup_method, hv]
    rfl
  · intro hv
    rw [authQueryPairs_lookup_challenge, hv]
    rfl

/-- C6 amended, witness: with params `{state := "s1", nonce := "n1"}` the
query's state and nonce values are exactly those supplied. -/
theorem claim_C6_amended_witness :
    (authQueryPairs svcShared heapShared { state := some "s1", nonce := some "n1" }
      "gn" "gs" (generateCodeChallenge "ver")).lookup "state" = some "s1" ∧
    (authQueryPairs svcShared heapShared { state := some "s1", nonce := some "n1" }
      "gn" "gs" (generateCodeChallenge "ver")).lookup "nonce" = some "n1" := by
  have h := claim_C6_amended cfgShared heapShared svcShared heapShared rfl
    { state := some "s1", nonce := some "n1" } "gn" "gs" "ver"
  exact ⟨h.2.2.1 "s1" rfl (by decide), h.2.2.2.1 "n1" rfl (by decide)⟩

/-- C7: every transport failure from any of the four network operations is
rethrown as a structured error with the original message, the fixed tag
`API_ERROR`, the HTTP status when available (simulated 401/500 included),
and the original error; every non-transport exception passes through the
interceptor unmodified. -/
theorem claim_C7 :
    (∀ info : AxiosErrorInfo, interceptorOnRejected (.axios info) =
      .govbr { message := info.message, code := "API_ERROR", statusCode := info.status,
               originalError := .axios info }) ∧
    (∀ tag : String, interceptorOnRejected (.other tag) = .passthrough (.other tag)) ∧
    (∀ (s : AuthService) (code verifier : String) (e : JsException),
      getTokensOutcome s code verifier (.error e) = .error (interceptorOnRejected e)) ∧
    (∀ (s : AuthService) (tok : String) (e : JsException),
      getUserInfoOutcome s tok (.error e) = .error (interceptorOnRejected e)) ∧
    (∀ (s : AuthService) (tok cpf : String) (e : JsException),
      getConfiabilidadeNiveisOutcome s tok cpf (.error e) = .error (interceptorOnRejected e)) ∧
    (∀ (s : AuthService) (tok cpf : String) (e : JsException),
      getConfiabilidadeSelosOutcome s tok cpf (.error e) = .error (interceptorOnRejected e)) ∧
    (∀ m : String, ∃ g, interceptorOnRejected (.axios { message := m, status := some 401 }) =
      .govbr g ∧ g.code = "API_ERROR" ∧ g.statusCode = some 401) ∧
    (∀ m : String, ∃ g, interceptorOnRejected (.axios { message := m, status := some 500 }) =
      .govbr g ∧ g.code = "API_ERROR" ∧ g.statusCode = some 500) :=
  ⟨fun _ => rfl, fun _ => rfl, fun _ _ _ _ => rfl, fun _ _ _ => rfl, fun _ _ _ _ => rfl,
   fun _ _ _ _ => rfl, fun m => ⟨_, rfl, rfl, rfl⟩, fun m => ⟨_, rfl, rfl, rfl⟩⟩

/-- C8: `generateLogoutUrl` is a pure string construction: for every uri it
returns the logout endpoint, `?post_logout_redirect_uri=`, and the
URL-encoded uri; in particular for `https://app.test/done` the query value
is exactly `https%3A%2F%2Fapp.test%2Fdone`. -/
theorem claim_C8 (s : AuthService) (uri : String) :
    generateLogoutUrl s uri =
      s.endpoints.logout ++ "?post_logout_redirect_uri=" ++ formEncode uri ∧
    generateLogoutUrl s "https://app.test/done" =
      s.endpoints.logout ++ "?post_logout_redirect_uri=https%3A%2F%2Fapp.test%2Fdone" := by
  refine ⟨generateLogoutUrl_eq s uri, ?_⟩
  rw [generateLogoutUrl_eq s "https://app.test/done"]
  rw [show formEncode "https://app.test/done" = "https%3A%2F%2Fapp.test%2Fdone" from by decide]
  rw [strAppend_assoc]
  congr 1

/-- C9: a service constructed with environment staging resolves every
operation against the staging endpoint table: the authorization and logout
URLs extend the staging authorize/logout endpoints, and the token, userinfo
and both trust lookups target the staging token/userinfo/confiabilidades
URLs; the endpoint table is part of the immutable service value. -/
theorem claim_C9 (config : GovBRConfig) (h : Heap) (s : AuthService) (h' : Heap)
    (hc : mkAuthService config h = .ok (s, h'))
    (henv : config.environment = some .staging)
    (params : AuthorizeParams) (gn gs gv code verifier accessToken cpf uri : String) :
    s.endpoints = ENDPOINTS .staging ∧
    (∃ q, generateAuthorizationUrl s h' params gn gs gv =
      (ENDPOINTS .staging).authorize ++ "?" ++ q) ∧
    (getTokensRequest s code verifier).url = (ENDPOINTS .staging).token ∧
    (getUserInfoRequest s accessToken).url = (ENDPOINTS .staging).userinfo ∧
    (getConfiabilidadeNiveisRequest s accessToken cpf).url =
      (ENDPOINTS .staging).confiabilidades ++ "/contas/" ++ cpf ++ "/niveis" ∧
    (getConfiabilidadeSelosRequest s accessToken cpf).url =
      (ENDPOINTS .staging).confiabilidades ++ "/contas/" ++ cpf ++ "/confiabilidades" ∧
    (∃ q, generateLogoutUrl s uri = (ENDPOINTS .staging).logout ++ "?" ++ q) := by
  obtain ⟨-, -, -, -, -, -, henv2, hend, -⟩ := mkAuthService_ok hc
  rw [henv] at henv2
  have hE : s.endpoints = ENDPOINTS .staging := by
    rw [hend, henv2]
    rfl
  refine ⟨hE,
    ⟨serializeQuery (authQueryPairs s h' params gn gs (generateCodeChallenge gv)), ?_⟩,
    ?_, ?_, ?_, ?_, ⟨serializeQuery [("post_logout_redirect_uri", uri)], ?_⟩⟩
  · show s.endpoints.authorize ++ "?" ++ _ = _
    rw [hE]
  · show s.endpoints.token = _
    rw [hE]
  · show s.endpoints.userinfo = _
    rw [hE]
  · show s.endpoints.confiabilidades ++ "/contas/" ++ cpf ++ "/niveis" = _
    rw [hE]
  · show s.endpoints.confiabilidades ++ "/contas/" ++ cpf ++ "/confiabilidades" = _
    rw [hE]
  · show s.endpoints.logout ++ "?" ++ _ = _
    rw [hE]

/-- C9 witness: the staging fixture routes the token, userinfo and trust
requests to the staging URLs. -/
theorem claim_C9_witness :
    svcStaging.endpoints = ENDPOINTS .staging ∧
    (∃ q, generateAuthorizationUrl svcStaging heapShared paramsFixed "gn" "gs" "gv" =
      (ENDPOINTS .staging).authorize ++ "?" ++ q) ∧
    (getTokensRequest svcStaging "code" "ver").url = (ENDPOINTS .staging).token ∧
    (getUserInfoRequest svcStaging "tok").url = (ENDPOINTS .staging).userinfo ∧
    (getConfiabilidadeNiveisRequest svcStaging "tok" "123").url =
      (ENDPOINTS .staging).confiabilidades ++ "/contas/" ++ "123" ++ "/niveis" ∧
    (getConfiabilidadeSelosRequest svcStaging "tok" "123").url =
      (ENDPOINTS .staging).confiabilidades ++ "/contas/" ++ "123" ++ "/confiabilidades" ∧
    (∃ q, generateLogoutUrl svcStaging "https://app.test/done" =
      (ENDPOINTS .staging).logout ++ "?" ++ q) :=
  claim_C9 cfgStaging heapShared svcStaging heapShared rfl rfl paramsFixed
    "gn" "gs" "gv" "code" "ver" "tok" "123" "https://app.test/done"
